import Mathlib

/-!
Verification of the client-side secure document cache of the FOI redaction
tool (`src/services/encryption.service.ts`), as a shallow embedding.

Modelling conventions:
* The browser clock (`Date.now()` / `new Date()`) is an explicit `now : Nat`
  parameter (milliseconds since epoch); each synchronous operation executes
  at one instant.
* `localStorage` is an association list from keys to stored values; a stored
  value is either the JSON record written by `cacheDocument` (kept in
  structured form, since `JSON.stringify`/`JSON.parse` round-trip it) or an
  arbitrary string written by some other part of the application.
* Web Crypto AES-GCM is modelled symbolically: a ciphertext records the key
  handle, IV and plaintext that produced it, and authenticated decryption
  succeeds exactly when it is attempted with the same key handle and IV
  (the standard symbolic idealization of an authenticated cipher).
* `crypto.subtle.generateKey` and `uuidv4` return fresh values; freshness is
  modelled by a counter `nextId` in the service state.  The 12 random bytes
  of `crypto.getRandomValues` are an explicit `ivEntropy` input.
* `btoa(String.fromCharCode(...bytes))` is standard base64 of the byte
  sequence and is implemented concretely below.
-/

/-- Document bytes (`Uint8Array` / `ArrayBuffer` contents): each entry is a
byte value, `< 256` where byte-ness matters. -/
abbrev Bytes := List Nat

/-- The `FOIError` class of `src/types`: message, error code, HTTP-ish status. -/
structure FOIError where
  message : String
  code : String
  statusCode : Nat
deriving DecidableEq

/-- The standard base64 alphabet, as used by `btoa`. -/
def b64Alphabet : List Char :=
  ['A','B','C','D','E','F','G','H','I','J','K','L','M',
   'N','O','P','Q','R','S','T','U','V','W','X','Y','Z',
   'a','b','c','d','e','f','g','h','i','j','k','l','m',
   'n','o','p','q','r','s','t','u','v','w','x','y','z',
   '0','1','2','3','4','5','6','7','8','9','+','/']

/-- The base64 character of a 6-bit group. -/
def b64Char (i : Nat) : Char := b64Alphabet.getD i 'A'

/-- Position of a character in the base64 alphabet (decoding helper). -/
def b64Index (c : Char) : Nat := b64Alphabet.indexOf c

/-- Base64 encoding of a byte sequence, 3 bytes to 4 characters with `=`
padding — the behaviour of `btoa(String.fromCharCode(...bytes))`. -/
def b64EncodeChars : Bytes → List Char
  | [] => []
  | [b0] =>
    [b64Char (b0 / 4), b64Char (b0 % 4 * 16), '=', '=']
  | [b0, b1] =>
    [b64Char (b0 / 4), b64Char (b0 % 4 * 16 + b1 / 16), b64Char (b1 % 16 * 4), '=']
  | b0 :: b1 :: b2 :: rest =>
    b64Char (b0 / 4) :: b64Char (b0 % 4 * 16 + b1 / 16) ::
    b64Char (b1 % 16 * 4 + b2 / 64) :: b64Char (b2 % 64) :: b64EncodeChars rest

/-- Base64 encoding as a string. -/
def base64Encode (bs : Bytes) : String := String.mk (b64EncodeChars bs)

/-- Base64 decoding on character lists (inverse of `b64EncodeChars`; proof
device for injectivity of the encoding, mirrors `atob`). -/
def b64DecodeChars : List Char → Option Bytes
  | c0 :: c1 :: c2 :: c3 :: rest =>
    if c2 = '=' then
      if c3 = '=' ∧ rest = [] then
        some [b64Index c0 * 4 + b64Index c1 / 16]
      else none
    else if c3 = '=' then
      if rest = [] then
        some [b64Index c0 * 4 + b64Index c1 / 16,
              b64Index c1 % 16 * 16 + b64Index c2 / 4]
      else none
    else
      (b64DecodeChars rest).map (fun bs =>
        (b64Index c0 * 4 + b64Index c1 / 16) ::
        (b64Index c1 % 16 * 16 + b64Index c2 / 4) ::
        (b64Index c2 % 4 * 64 + b64Index c3) :: bs)
  | [] => some []
  | _ => none

/-- The `EncryptionKey` record of `src/types`: the session key of the
service.  `key` is the opaque `CryptoKey` handle (identified by the fresh
token that created it), `iv` the 12 random bytes, `sessionId` the `uuidv4`
value (also an opaque fresh token). -/
structure EncryptionKey where
  key : Nat
  iv : Bytes
  sessionId : Nat
deriving DecidableEq

/-- Symbolic AES-GCM ciphertext: records the key handle and IV used at
encryption time together with the plaintext.  (In the browser this is the
base64 string produced by `encrypt` + `btoa`; base64 and the cipher are both
injective, so the structured form is an equivalent representation.) -/
structure Ciphertext where
  keyId : Nat
  iv : Bytes
  plaintext : Bytes
deriving DecidableEq

/-- Symbolic AES-GCM encryption (`crypto.subtle.encrypt`). -/
def aesGcmEncrypt (keyId : Nat) (iv : Bytes) (plaintext : Bytes) : Ciphertext :=
  { keyId := keyId, iv := iv, plaintext := plaintext }

/-- Symbolic AES-GCM decryption (`crypto.subtle.decrypt`): authenticated
decryption succeeds exactly when attempted under the key handle and IV that
produced the ciphertext, and fails (tag mismatch) otherwise. -/
def aesGcmDecrypt (keyId : Nat) (iv : Bytes) (ct : Ciphertext) : Option Bytes :=
  if ct.keyId = keyId ∧ ct.iv = iv then some ct.plaintext else none

/-- The `SecureCache` record of `src/types`, the JSON value persisted per
cached document.  Timestamps are milliseconds since epoch. -/
structure SecureCache where
  documentId : String
  encryptedData : Ciphertext
  iv : String
  timestamp : Nat
  expiresAt : Nat
deriving DecidableEq

/-- A value held in `localStorage`: either the serialized `SecureCache`
record written by `cacheDocument`, or an arbitrary string written by another
part of the application (e.g. the auth session record). -/
inductive StorageValue
  | cacheVal (c : SecureCache)
  | rawVal (s : String)
deriving DecidableEq

/-- `localStorage` as a key–value association list. -/
abbrev Storage := List (String × StorageValue)

/-- `localStorage.getItem`. -/
def Storage.getItem (st : Storage) (k : String) : Option StorageValue :=
  (st.find? (fun p => p.1 == k)).map (fun p => p.2)

/-- `localStorage.setItem`: overwrite in place, or append a new entry. -/
def Storage.setItem : Storage → String → StorageValue → Storage
  | [], k, v => [(k, v)]
  | (k', v') :: rest, k, v =>
    if k' == k then (k, v) :: rest else (k', v') :: Storage.setItem rest k v

/-- `localStorage.removeItem`. -/
def Storage.removeItem (st : Storage) (k : String) : Storage :=
  st.filter (fun p => p.1 != k)

/-- `Object.keys(localStorage)`. -/
def Storage.keysOf (st : Storage) : List String := st.map (fun p => p.1)

/-- JS `String.prototype.startsWith`: the pattern is a prefix of the
character sequence. -/
def strStartsWith (s pat : String) : Bool := pat.data.isPrefixOf s.data

/-- The state of the `EncryptionService` singleton together with the browser
storage it manipulates.  `nextId` is the freshness counter backing key and
session-id generation. -/
structure EncState where
  sessionKey : Option EncryptionKey
  localStorage : Storage
  sessionStorage : List (String × String)
  nextId : Nat
deriving DecidableEq

/-- `CACHE_PREFIX` of the service. -/
def CACHE_PREFIX : String := "foi_secure_"

/-- `SESSION_DURATION` of the service: 8 hours in milliseconds. -/
def SESSION_DURATION : Nat := 8 * 60 * 60 * 1000

/-- `initializeSession`: generate a brand-new AES-GCM key, 12-byte IV and
uuid session id, replacing any existing session key.  Fresh values are drawn
from the counter; the random IV bytes are the `ivEntropy` input.  (The model
assumes the Web Crypto primitive is available, so the `ENCRYPTION_INIT_FAILED`
path is not reachable.) -/
def initializeSession (ivEntropy : Bytes) (s : EncState) : EncState :=
  { s with
      sessionKey := some { key := s.nextId, iv := ivEntropy, sessionId := s.nextId },
      nextId := s.nextId + 1 }

/-- The lazy-initialization prelude of `encryptData`:
`if (!this.sessionKey) await this.initializeSession()`, and the session key
that is then in place. -/
def ensureSession (ivEntropy : Bytes) (s : EncState) : EncryptionKey × EncState :=
  match s.sessionKey with
  | some sk => (sk, s)
  | none =>
    ({ key := s.nextId, iv := ivEntropy, sessionId := s.nextId },
     initializeSession ivEntropy s)

/-- The `string | ArrayBuffer` input type of the cache write path. -/
inductive DocData
  | str (s : String)
  | buf (b : Bytes)
deriving DecidableEq

/-- `TextEncoder().encode` for strings, identity for buffers. -/
def dataToBuffer : DocData → Bytes
  | .str s => s.toUTF8.toList.map (fun b => b.toNat)
  | .buf b => b

/-- `encryptData`: ensure a session key exists, then encrypt under the
current key and session IV. -/
def encryptData (ivEntropy : Bytes) (data : DocData) (s : EncState) :
    Ciphertext × EncState :=
  let p := ensureSession ivEntropy s
  (aesGcmEncrypt p.1.key p.1.iv (dataToBuffer data), p.2)

/-- `decryptData`: throws `ENCRYPTION_NO_SESSION` when no session key is
present; otherwise attempts AES-GCM decryption under the current key and
session IV, throwing `DECRYPTION_FAILED` when authentication fails. -/
def decryptData (ct : Ciphertext) (s : EncState) : Except FOIError Bytes :=
  match s.sessionKey with
  | none => .error ⟨"No encryption session available", "ENCRYPTION_NO_SESSION", 400⟩
  | some sk =>
    match aesGcmDecrypt sk.key sk.iv ct with
    | some pt => .ok pt
    | none => .error ⟨"Failed to decrypt data", "DECRYPTION_FAILED", 500⟩

/-- `cacheDocument`: encrypt the data (lazily initializing a session), build
the `SecureCache` record with the base64 session IV, `timestamp = now` and
`expiresAt = now + SESSION_DURATION`, and persist it under the namespaced
key.  The `none` branch is the `this.sessionKey!` non-null assertion, which
would surface as the `CACHE_FAILED` error; it is unreachable because
`encryptData` always leaves a session key in place. -/
def cacheDocument (now : Nat) (ivEntropy : Bytes) (documentId : String)
    (data : DocData) (s : EncState) : Except FOIError EncState :=
  let p := encryptData ivEntropy data s
  match p.2.sessionKey with
  | none => .error ⟨"Failed to cache document", "CACHE_FAILED", 500⟩
  | some sk =>
    let cache : SecureCache :=
      { documentId := documentId
        encryptedData := p.1
        iv := base64Encode sk.iv
        timestamp := now
        expiresAt := now + SESSION_DURATION }
    .ok { p.2 with
            localStorage :=
              p.2.localStorage.setItem (CACHE_PREFIX ++ documentId) (.cacheVal cache) }

/-- `removeCachedDocument`: unconditional deletion of the namespaced key. -/
def removeCachedDocument (documentId : String) (s : EncState) : EncState :=
  { s with localStorage := s.localStorage.removeItem (CACHE_PREFIX ++ documentId) }

/-- `getCachedDocument`: look up the namespaced key (`none` on absence);
on a malformed stored value the `JSON.parse`/decrypt failure is caught, the
entry removed and `none` returned; on an expired entry the entry is removed
and `none` returned; otherwise decrypt under the current session key, with
any thrown error (no session, authentication failure) caught, downgraded to
`none` and the entry removed.  Returns the result together with the state
after the read. -/
def getCachedDocument (now : Nat) (documentId : String) (s : EncState) :
    Option Bytes × EncState :=
  match s.localStorage.getItem (CACHE_PREFIX ++ documentId) with
  | none => (none, s)
  | some (.rawVal _) => (none, removeCachedDocument documentId s)
  | some (.cacheVal cache) =>
    if cache.expiresAt < now then
      (none, removeCachedDocument documentId s)
    else
      match decryptData cache.encryptedData s with
      | .ok pt => (some pt, s)
      | .error _ => (none, removeCachedDocument documentId s)

/-- `panicClear`: remove every `localStorage` key in the cache namespace,
clear `sessionStorage`, and destroy the session key.  (The DOM scratch-state
sweep and the optional `gc()` call touch no modelled state.)  The storage
operations of the model are total, so the `PANIC_CLEAR_FAILED` path is not
reachable; in particular the operation succeeds when there is nothing to
clear. -/
def panicClear (s : EncState) : Except FOIError EncState :=
  .ok { s with
          localStorage := s.localStorage.filter (fun p => !(strStartsWith p.1 CACHE_PREFIX))
          sessionStorage := []
          sessionKey := none }

/-- JS `key.replace(CACHE_PREFIX, '')` replaces the first occurrence of the
pattern; every key this is applied to starts with the pattern, so it drops
the leading `CACHE_PREFIX.length` characters. -/
def dropCachePrefix (k : String) : String :=
  String.mk (k.data.drop CACHE_PREFIX.data.length)

/-- `getCachedDocumentIds`: the keys in the cache namespace, with the
namespace removed. -/
def getCachedDocumentIds (s : EncState) : List String :=
  ((s.localStorage.keysOf).filter (fun k => strStartsWith k CACHE_PREFIX)).map
    dropCachePrefix

/-- The return record of `getSessionInfo`. -/
structure SessionInfo where
  sessionId : Option Nat
  hasKey : Bool
deriving DecidableEq

/-- `getSessionInfo`: session id (if any) and whether a key exists. -/
def getSessionInfo (s : EncState) : SessionInfo :=
  { sessionId := s.sessionKey.map (fun sk => sk.sessionId)
    hasKey := s.sessionKey.isSome }

/-- Symbolic model of SHA-256 (`crypto.subtle.digest`, a platform primitive,
not repository code): an injective digest function — collision resistance is
idealized as injectivity, the standard symbolic treatment of a cryptographic
hash.  The concrete choice of injection is irrelevant to the theorems. -/
def sha256Digest (data : Bytes) : Bytes := data

/-- `generateHash`: base64 of the SHA-256 digest of the bytes.  A pure
function of its input — it reads no service state. -/
def generateHash (data : Bytes) : String := base64Encode (sha256Digest data)

/-- `verifyHash`: recompute and compare. -/
def verifyHash (data : Bytes) (expectedHash : String) : Bool :=
  generateHash data == expectedHash

theorem b64Index_b64Char : ∀ i : Fin 64, b64Index (b64Char i.val) = i.val := by decide

theorem b64Char_ne_pad : ∀ i : Fin 64, b64Char i.val ≠ '=' := by decide

theorem b64Index_b64Char_lt (i : Nat) (h : i < 64) : b64Index (b64Char i) = i :=
  b64Index_b64Char ⟨i, h⟩

theorem b64Char_ne_pad_lt (i : Nat) (h : i < 64) : b64Char i ≠ '=' :=
  b64Char_ne_pad ⟨i, h⟩

theorem b64_roundtrip : ∀ bs : Bytes, (∀ b ∈ bs, b < 256) →
    b64DecodeChars (b64EncodeChars bs) = some bs := by
  intro bs
  induction bs using b64EncodeChars.induct with
  | case1 =>
    intro _
    simp [b64EncodeChars, b64DecodeChars]
  | case2 b0 =>
    intro h
    have hb0 : b0 < 256 := h b0 (by simp)
    have e0 : b64Index (b64Char (b0 / 4)) = b0 / 4 := b64Index_b64Char_lt _ (by omega)
    have e1 : b64Index (b64Char (b0 % 4 * 16)) = b0 % 4 * 16 := b64Index_b64Char_lt _ (by omega)
    simp only [b64EncodeChars, b64DecodeChars, e0, e1, if_true, and_self, ite_true]
    simp only [Option.some.injEq, List.cons.injEq, and_true]
    omega
  | case3 b0 b1 =>
    intro h
    have hb0 : b0 < 256 := h b0 (by simp)
    have hb1 : b1 < 256 := h b1 (by simp)
    have e0 : b64Index (b64Char (b0 / 4)) = b0 / 4 := b64Index_b64Char_lt _ (by omega)
    have e1 : b64Index (b64Char (b0 % 4 * 16 + b1 / 16)) = b0 % 4 * 16 + b1 / 16 :=
      b64Index_b64Char_lt _ (by omega)
    have e2 : b64Index (b64Char (b1 % 16 * 4)) = b1 % 16 * 4 := b64Index_b64Char_lt _ (by omega)
    have n2 : b64Char (b1 % 16 * 4) ≠ '=' := b64Char_ne_pad_lt _ (by omega)
    simp only [b64EncodeChars, b64DecodeChars, if_neg n2, e0, e1, e2, if_true, ite_true]
    simp only [Option.some.injEq, List.cons.injEq, and_true]
    omega
  | case4 b0 b1 b2 rest ih =>
    intro h
    have hb0 : b0 < 256 := h b0 (by simp)
    have hb1 : b1 < 256 := h b1 (by simp)
    have hb2 : b2 < 256 := h b2 (by simp)
    have hrest : ∀ b ∈ rest, b < 256 := by
      intro b hb
      exact h b (by simp [hb])
    have e0 : b64Index (b64Char (b0 / 4)) = b0 / 4 := b64Index_b64Char_lt _ (by omega)
    have e1 : b64Index (b64Char (b0 % 4 * 16 + b1 / 16)) = b0 % 4 * 16 + b1 / 16 :=
      b64Index_b64Char_lt _ (by omega)
    have e2 : b64Index (b64Char (b1 % 16 * 4 + b2 / 64)) = b1 % 16 * 4 + b2 / 64 :=
      b64Index_b64Char_lt _ (by omega)
    have e3 : b64Index (b64Char (b2 % 64)) = b2 % 64 := b64Index_b64Char_lt _ (by omega)
    have n2 : b64Char (b1 % 16 * 4 + b2 / 64) ≠ '=' := b64Char_ne_pad_lt _ (by omega)
    have n3 : b64Char (b2 % 64) ≠ '=' := b64Char_ne_pad_lt _ (by omega)
    simp only [b64EncodeChars, b64DecodeChars, if_neg n2, if_neg n3, ih hrest,
      Option.map_some', e0, e1, e2, e3]
    simp only [Option.some.injEq, List.cons.injEq, and_true]
    refine ⟨by omega, by omega, by omega⟩

theorem b64EncodeChars_injOn (a b : Bytes) (ha : ∀ x ∈ a, x < 256)
    (hb : ∀ x ∈ b, x < 256) (h : b64EncodeChars a = b64EncodeChars b) : a = b := by
  have h1 := b64_roundtrip a ha
  have h2 := b64_roundtrip b hb
  rw [h, h2] at h1
  exact (Option.some.injEq _ _ ▸ h1).symm

theorem base64Encode_injOn (a b : Bytes) (ha : ∀ x ∈ a, x < 256)
    (hb : ∀ x ∈ b, x < 256) (h : base64Encode a = base64Encode b) : a = b := by
  apply b64EncodeChars_injOn a b ha hb
  have := congrArg String.data h
  simpa [base64Encode] using this

theorem Storage.getItem_nil (k : String) : Storage.getItem [] k = none := rfl

theorem Storage.getItem_cons (p : String × StorageValue) (rest : Storage) (k : String) :
    Storage.getItem (p :: rest) k = if p.1 = k then some p.2 else Storage.getItem rest k := by
  by_cases h : p.1 = k
  · rw [if_pos h]
    unfold Storage.getItem
    rw [List.find?_cons_of_pos _ (by simpa using h)]
    rfl
  · rw [if_neg h]
    unfold Storage.getItem
    rw [List.find?_cons_of_neg _ (by simpa using h)]

theorem Storage.getItem_setItem_self (st : Storage) (k : String) (v : StorageValue) :
    Storage.getItem (st.setItem k v) k = some v := by
  induction st with
  | nil => simp [Storage.setItem, Storage.getItem_cons, Storage.getItem_nil]
  | cons p rest ih =>
    obtain ⟨k', v'⟩ := p
    by_cases h : k' = k
    · simp [Storage.setItem, h, Storage.getItem_cons]
    · simp only [Storage.setItem, beq_iff_eq, if_neg h]
      rw [Storage.getItem_cons]
      simp only [if_neg h]
      exact ih

theorem Storage.getItem_filter (st : Storage) (f : String → Bool) (k : String) :
    Storage.getItem (st.filter (fun p => f p.1)) k =
      if f k then Storage.getItem st k else none := by
  induction st with
  | nil => simp [Storage.getItem_nil]
  | cons p rest ih =>
    obtain ⟨k', v'⟩ := p
    rw [List.filter_cons]
    by_cases hk : k' = k
    · subst hk
      by_cases hf : f k' <;> simp [hf, Storage.getItem_cons, ih]
    · by_cases hf : f k' <;> simp [hf, hk, Storage.getItem_cons, ih]

theorem Storage.getItem_removeItem_self (st : Storage) (k : String) :
    Storage.getItem (st.removeItem k) k = none := by
  have h := Storage.getItem_filter st (fun x => x != k) k
  simpa [Storage.removeItem] using h

theorem Storage.getItem_removeItem_ne (st : Storage) (k k0 : String) (h : k ≠ k0) :
    Storage.getItem (st.removeItem k0) k = Storage.getItem st k := by
  have hf := Storage.getItem_filter st (fun x => x != k0) k
  simpa [Storage.removeItem, h] using hf

theorem strStartsWith_append (p s : String) : strStartsWith (p ++ s) p = true := by
  simp [strStartsWith, String.data_append, List.isPrefixOf_iff_prefix]

theorem dropCachePrefix_append (id : String) :
    dropCachePrefix (CACHE_PREFIX ++ id) = id := by
  apply String.ext
  simp [dropCachePrefix, String.data_append, List.drop_left]

theorem eq_append_of_startsWith_drop (k id : String)
    (h1 : strStartsWith k CACHE_PREFIX = true) (h2 : dropCachePrefix k = id) :
    k = CACHE_PREFIX ++ id := by
  have hp : CACHE_PREFIX.data <+: k.data := by
    simpa [strStartsWith, List.isPrefixOf_iff_prefix] using h1
  obtain ⟨t, ht⟩ := hp
  have hdrop : k.data.drop CACHE_PREFIX.data.length = t := by
    rw [← ht, List.drop_left]
  have hid : id.data = t := by
    rw [← h2]
    simpa [dropCachePrefix] using hdrop
  apply String.ext
  rw [String.data_append, ← ht, hid]

theorem mem_getCachedDocumentIds_iff (s : EncState) (id : String) :
    id ∈ getCachedDocumentIds s ↔
      (CACHE_PREFIX ++ id) ∈ Storage.keysOf s.localStorage := by
  unfold getCachedDocumentIds
  constructor
  · intro h
    obtain ⟨k, hk, hdrop⟩ := List.mem_map.mp h
    obtain ⟨hkm, hsw⟩ := List.mem_filter.mp hk
    rw [← eq_append_of_startsWith_drop k id hsw hdrop]
    exact hkm
  · intro h
    apply List.mem_map.mpr
    exact ⟨CACHE_PREFIX ++ id,
      List.mem_filter.mpr ⟨h, strStartsWith_append _ _⟩, dropCachePrefix_append id⟩

theorem keys_filter_not (st : Storage) (f : String → Bool) :
    List.filter f (Storage.keysOf (st.filter (fun p => !(f p.1)))) = [] := by
  induction st with
  | nil => rfl
  | cons p rest ih =>
    rw [List.filter_cons]
    by_cases hf : f p.1 <;> simp [hf, Storage.keysOf, List.filter_cons, ih]

theorem key_not_mem_keysOf_removeItem (st : Storage) (k : String) :
    k ∉ Storage.keysOf (st.removeItem k) := by
  intro h
  obtain ⟨p, hp, hpk⟩ := List.mem_map.mp h
  obtain ⟨hpm, hne⟩ := List.mem_filter.mp hp
  rw [hpk] at hne
  simp at hne

theorem aesGcm_encrypt_decrypt (k : Nat) (iv : Bytes) (pt : Bytes) :
    aesGcmDecrypt k iv (aesGcmEncrypt k iv pt) = some pt := by
  simp [aesGcmEncrypt, aesGcmDecrypt]

theorem ensureSession_sessionKey (ivE : Bytes) (s : EncState) :
    (ensureSession ivE s).2.sessionKey = some (ensureSession ivE s).1 := by
  cases h : s.sessionKey <;> simp [ensureSession, h, initializeSession]

theorem ensureSession_localStorage (ivE : Bytes) (s : EncState) :
    (ensureSession ivE s).2.localStorage = s.localStorage := by
  cases h : s.sessionKey <;> simp [ensureSession, h, initializeSession]

theorem ensureSession_of_some (ivE : Bytes) (s : EncState) (sk : EncryptionKey)
    (h : s.sessionKey = some sk) : ensureSession ivE s = (sk, s) := by
  simp [ensureSession, h]

theorem cacheDocument_eq (now : Nat) (ivE : Bytes) (id : String) (d : DocData)
    (s : EncState) :
    cacheDocument now ivE id d s = .ok
      { (ensureSession ivE s).2 with
          localStorage := Storage.setItem (ensureSession ivE s).2.localStorage
            (CACHE_PREFIX ++ id)
            (.cacheVal
              { documentId := id
                encryptedData := aesGcmEncrypt (ensureSession ivE s).1.key
                  (ensureSession ivE s).1.iv (dataToBuffer d)
                iv := base64Encode (ensureSession ivE s).1.iv
                timestamp := now
                expiresAt := now + SESSION_DURATION }) } := by
  simp only [cacheDocument, encryptData]
  rw [ensureSession_sessionKey]

/-- C1: caching a byte sequence and immediately reading it back returns the
same bytes. -/
theorem C1_cache_roundtrip (s : EncState) (now now2 : Nat) (ivE : Bytes)
    (id : String) (d : Bytes) (ht : now2 ≤ now + SESSION_DURATION) :
    ∃ s2, cacheDocument now ivE id (.buf d) s = .ok s2 ∧
      (getCachedDocument now2 id s2).1 = some d := by
  refine ⟨_, cacheDocument_eq now ivE id (.buf d) s, ?_⟩
  unfold getCachedDocument
  simp only [Storage.getItem_setItem_self]
  rw [if_neg (by omega)]
  simp only [decryptData, ensureSession_sessionKey, dataToBuffer,
    aesGcm_encrypt_decrypt]

theorem key_mem_keysOf_setItem (st : Storage) (k : String) (v : StorageValue) :
    k ∈ Storage.keysOf (st.setItem k v) := by
  induction st with
  | nil => simp [Storage.setItem, Storage.keysOf]
  | cons p rest ih =>
    obtain ⟨k', v'⟩ := p
    by_cases h : k' = k
    · simp [Storage.setItem, h, Storage.keysOf]
    · simp only [Storage.setItem, beq_iff_eq, if_neg h, Storage.keysOf, List.map_cons,
        List.mem_cons]
      right
      simpa [Storage.keysOf] using ih

/-- C2: after a successful panicClear, every read misses, the id list is
empty, no key is held, and panicClear never throws. -/
theorem C2_panic_clear_total (s s2 : EncState) (h : panicClear s = .ok s2)
    (now : Nat) (id : String) :
    (getCachedDocument now id s2).1 = none ∧
    getCachedDocumentIds s2 = [] ∧
    (getSessionInfo s2).hasKey = false ∧
    (∀ t : EncState, ∃ t2, panicClear t = .ok t2) := by
  simp only [panicClear, Except.ok.injEq] at h
  subst h
  refine ⟨?_, ?_, rfl, fun t => ⟨_, rfl⟩⟩
  · unfold getCachedDocument
    have hf := Storage.getItem_filter s.localStorage
      (fun x => !(strStartsWith x CACHE_PREFIX)) (CACHE_PREFIX ++ id)
    rw [strStartsWith_append] at hf
    simp only [Bool.not_true, if_false] at hf
    rw [show Storage.getItem
        (List.filter (fun p => !(strStartsWith p.1 CACHE_PREFIX)) s.localStorage)
        (CACHE_PREFIX ++ id) = none from hf]
  · unfold getCachedDocumentIds
    rw [show (List.filter (fun k => strStartsWith k CACHE_PREFIX)
        (Storage.keysOf (List.filter
          (fun p => !(strStartsWith p.1 CACHE_PREFIX)) s.localStorage))) = [] from
      keys_filter_not s.localStorage (fun x => strStartsWith x CACHE_PREFIX)]
    rfl

/-- C3: an entry cached under a replaced or destroyed session key reads as a
cache miss and is removed, not a thrown error. -/
theorem C3_unreadable_entry_miss (s t : EncState) (ivE1 ivE2 ivE3 : Bytes)
    (now1 now2 now3 : Nat) (id id2 : String) (d : DocData) (c : SecureCache)
    (htk : t.sessionKey = none)
    (htc : Storage.getItem t.localStorage (CACHE_PREFIX ++ id2) = some (.cacheVal c)) :
    (∃ s2, cacheDocument now1 ivE2 id d (initializeSession ivE1 s) = .ok s2 ∧
      (getCachedDocument now2 id (initializeSession ivE3 s2)).1 = none ∧
      Storage.getItem
        (getCachedDocument now2 id (initializeSession ivE3 s2)).2.localStorage
        (CACHE_PREFIX ++ id) = none) ∧
    ((getCachedDocument now3 id2 t).1 = none ∧
      Storage.getItem (getCachedDocument now3 id2 t).2.localStorage
        (CACHE_PREFIX ++ id2) = none) := by
  constructor
  · refine ⟨_, cacheDocument_eq now1 ivE2 id d (initializeSession ivE1 s), ?_⟩
    rw [ensureSession_of_some ivE2 (initializeSession ivE1 s)
      { key := s.nextId, iv := ivE1, sessionId := s.nextId } rfl]
    unfold getCachedDocument
    simp only [initializeSession, Storage.getItem_setItem_self]
    have hne : ¬(s.nextId = s.nextId + 1 ∧ ivE1 = ivE3) := by
      rintro ⟨h1, -⟩
      omega
    simp only [decryptData, aesGcmEncrypt, aesGcmDecrypt, if_neg hne]
    constructor
    · by_cases hexp : now1 + SESSION_DURATION < now2 <;> simp [hexp]
    · by_cases hexp : now1 + SESSION_DURATION < now2 <;>
        simp [hexp, removeCachedDocument, Storage.getItem_removeItem_self]
  · simp only [getCachedDocument, htc]
    by_cases hexp : c.expiresAt < now3
    · simp [hexp, removeCachedDocument, Storage.getItem_removeItem_self]
    · simp only [decryptData, htk, if_neg hexp]
      simp [removeCachedDocument, Storage.getItem_removeItem_self]

/-- C4: an expired entry reads as a miss, is removed, and leaves the id list;
the result does not depend on the session key, as no decryption is attempted. -/
theorem C4_expired_entry_removed (s : EncState) (now : Nat) (id : String)
    (c : SecureCache)
    (hfind : Storage.getItem s.localStorage (CACHE_PREFIX ++ id) = some (.cacheVal c))
    (hexp : c.expiresAt < now) :
    (getCachedDocument now id s).1 = none ∧
    Storage.getItem (getCachedDocument now id s).2.localStorage
      (CACHE_PREFIX ++ id) = none ∧
    id ∉ getCachedDocumentIds (getCachedDocument now id s).2 := by
  simp only [getCachedDocument, hfind, if_pos hexp]
  refine ⟨trivial, ?_, ?_⟩
  · simp [removeCachedDocument, Storage.getItem_removeItem_self]
  · rw [mem_getCachedDocumentIds_iff]
    simp only [removeCachedDocument]
    exact key_not_mem_keysOf_removeItem s.localStorage (CACHE_PREFIX ++ id)

/-- C5 as stated is false: `cacheDocument` performs no validation of
`documentId`; with the empty identifier it succeeds and creates an entry
under the bare namespace key. -/
theorem C5_counterexample :
    ∃ s2, cacheDocument 0 [1] "" (.buf [7])
        { sessionKey := none, localStorage := [], sessionStorage := [], nextId := 0 } =
        .ok s2 ∧
      Storage.getItem s2.localStorage "foi_secure_" ≠ none ∧
      getCachedDocumentIds s2 = [""] := by
  refine ⟨_, rfl, ?_, ?_⟩ <;> decide

/-- C5 amended: `cacheDocument` with the empty identifier succeeds and
creates an entry under the bare namespace key, listed as the empty id. -/
theorem C5_amended_no_empty_check (s : EncState) (now : Nat) (ivE : Bytes)
    (d : DocData) :
    ∃ s2, cacheDocument now ivE "" d s = .ok s2 ∧
      (∃ c, Storage.getItem s2.localStorage (CACHE_PREFIX ++ "") =
        some (.cacheVal c)) ∧
      "" ∈ getCachedDocumentIds s2 := by
  refine ⟨_, cacheDocument_eq now ivE "" d s, ⟨_, Storage.getItem_setItem_self _ _ _⟩, ?_⟩
  rw [mem_getCachedDocumentIds_iff]
  exact key_mem_keysOf_setItem _ _ _

/-- C6: within one session, every entry written by cacheDocument keeps the
session key unchanged and stores as its iv field the base64 encoding of the
single session IV. -/
theorem C6_fixed_session_iv (s : EncState) (sk : EncryptionKey)
    (hs : s.sessionKey = some sk) (now : Nat) (ivE : Bytes) (id : String)
    (d : DocData) :
    ∃ s2, cacheDocument now ivE id d s = .ok s2 ∧
      s2.sessionKey = some sk ∧
      (∃ c, Storage.getItem s2.localStorage (CACHE_PREFIX ++ id) =
          some (.cacheVal c) ∧
        c.iv = base64Encode sk.iv) := by
  refine ⟨_, cacheDocument_eq now ivE id d s, ?_, ?_⟩
  · rw [ensureSession_of_some ivE s sk hs]
    exact hs
  · rw [ensureSession_of_some ivE s sk hs]
    exact ⟨_, Storage.getItem_setItem_self _ _ _, rfl⟩

/-- C8: every entry created by cacheDocument has timestamp = now and
expiresAt = timestamp + 8 hours (in milliseconds). -/
theorem C8_ttl_eight_hours (s : EncState) (now : Nat) (ivE : Bytes)
    (id : String) (d : DocData) :
    ∃ s2 c, cacheDocument now ivE id d s = .ok s2 ∧
      Storage.getItem s2.localStorage (CACHE_PREFIX ++ id) = some (.cacheVal c) ∧
      c.timestamp = now ∧ c.expiresAt = c.timestamp + 8 * 60 * 60 * 1000 := by
  exact ⟨_, _, cacheDocument_eq now ivE id d s,
    Storage.getItem_setItem_self _ _ _, rfl, rfl⟩

/-- C9: removeCachedDocument is idempotent and is a no-op (not an error)
when the entry is absent. -/
theorem C9_remove_idempotent (id : String) (s : EncState) :
    removeCachedDocument id (removeCachedDocument id s) = removeCachedDocument id s ∧
    (∀ t : EncState,
      Storage.getItem t.localStorage (CACHE_PREFIX ++ id) = none →
        removeCachedDocument id t = t) := by
  constructor
  · simp [removeCachedDocument, Storage.removeItem, List.filter_filter]
  · intro t h
    have hnone : List.find? (fun p => p.1 == CACHE_PREFIX ++ id) t.localStorage = none := by
      simpa [Storage.getItem] using h
    have hall := List.find?_eq_none.mp hnone
    have : Storage.removeItem t.localStorage (CACHE_PREFIX ++ id) = t.localStorage := by
      apply List.filter_eq_self.mpr
      intro p hp
      simpa using hall p hp
    simp [removeCachedDocument, this]

/-- C10: panicClear removes only the namespaced keys; every other
localStorage key keeps its value. -/
theorem C10_panic_frame (s : EncState) (k : String)
    (hk : strStartsWith k CACHE_PREFIX = false) :
    ∃ s2, panicClear s = .ok s2 ∧
      Storage.getItem s2.localStorage k = Storage.getItem s.localStorage k := by
  refine ⟨_, rfl, ?_⟩
  have h2 := Storage.getItem_filter s.localStorage
    (fun x => !(strStartsWith x CACHE_PREFIX)) k
  rw [hk] at h2
  simpa using h2

/-- C7: generateHash is deterministic and state-free, verifyHash accepts the
hash of the same bytes, and rejects after a one-byte mutation. -/
theorem C7_hash_integrity (d : Bytes) (i : Nat) (b : Nat)
    (hd : ∀ x ∈ d, x < 256) (hb : b < 256) (hi : i < d.length) (hne : b ≠ d[i]) :
    generateHash d = generateHash d ∧
    verifyHash d (generateHash d) = true ∧
    verifyHash (d.set i b) (generateHash d) = false := by
  refine ⟨rfl, by simp [verifyHash], ?_⟩
  simp only [verifyHash, beq_eq_false_iff_ne, ne_eq]
  intro hEq
  have hset : ∀ x ∈ d.set i b, x < 256 := by
    intro x hx
    rcases List.mem_or_eq_of_mem_set hx with h1 | h1
    · exact hd x h1
    · omega
  have heq2 : d.set i b = d := by
    apply base64Encode_injOn _ _ hset hd
    simpa [generateHash, sha256Digest] using hEq
  have hgot : (d.set i b)[i]? = some b := by
    simp [List.getElem?_set_self', hi]
  rw [heq2] at hgot
  have hdi : d[i]? = some d[i] := List.getElem?_eq_getElem hi
  rw [hdi] at hgot
  injection hgot with hgot2
  exact hne hgot2.symm

theorem C1_cache_roundtrip_witness :
    (5 : Nat) ≤ 5 + SESSION_DURATION ∧
    (∃ s2, cacheDocument 5 [9] "doc-1" (.buf [104, 105])
        { sessionKey := none, localStorage := [], sessionStorage := [], nextId := 0 } =
        .ok s2 ∧
      (getCachedDocument 5 "doc-1" s2).1 = some [104, 105]) :=
  ⟨by decide,
   C1_cache_roundtrip
     { sessionKey := none, localStorage := [], sessionStorage := [], nextId := 0 }
     5 5 [9] "doc-1" [104, 105] (by decide)⟩

theorem C2_panic_clear_total_witness :
    (getCachedDocument 0 "d"
        { sessionKey := none, localStorage := [], sessionStorage := [], nextId := 1 }).1 =
      none ∧
    getCachedDocumentIds
        { sessionKey := none, localStorage := [], sessionStorage := [], nextId := 1 } = [] ∧
    (getSessionInfo
        { sessionKey := none, localStorage := [], sessionStorage := [], nextId := 1 }).hasKey =
      false ∧
    (∃ t2, panicClear
        { sessionKey := none, localStorage := [], sessionStorage := [], nextId := 0 } =
        .ok t2) := by
  have h := C2_panic_clear_total
    { sessionKey := some { key := 0, iv := [9], sessionId := 0 }
      localStorage := [("foi_secure_d",
        .cacheVal { documentId := "d"
                    encryptedData := { keyId := 0, iv := [9], plaintext := [1] }
                    iv := "CQ=="
                    timestamp := 0
                    expiresAt := 1 })]
      sessionStorage := [("a", "b")]
      nextId := 1 }
    { sessionKey := none, localStorage := [], sessionStorage := [], nextId := 1 }
    rfl 0 "d"
  exact ⟨h.1, h.2.1, h.2.2.1,
    h.2.2.2 { sessionKey := none, localStorage := [], sessionStorage := [], nextId := 0 }⟩

theorem C3_unreadable_entry_miss_witness :
    ((∃ s2, cacheDocument 0 [2] "a" (.buf [5])
        (initializeSession [1]
          { sessionKey := none, localStorage := [], sessionStorage := [], nextId := 0 }) =
        .ok s2 ∧
      (getCachedDocument 0 "a" (initializeSession [3] s2)).1 = none ∧
      Storage.getItem
        (getCachedDocument 0 "a" (initializeSession [3] s2)).2.localStorage
        (CACHE_PREFIX ++ "a") = none) ∧
    ((getCachedDocument 0 "x"
        { sessionKey := none
          localStorage := [("foi_secure_x",
            .cacheVal { documentId := "x"
                        encryptedData := { keyId := 9, iv := [1], plaintext := [2] }
                        iv := "AQ=="
                        timestamp := 0
                        expiresAt := 3 })]
          sessionStorage := [], nextId := 0 }).1 = none ∧
      Storage.getItem
        (getCachedDocument 0 "x"
          { sessionKey := none
            localStorage := [("foi_secure_x",
              .cacheVal { documentId := "x"
                          encryptedData := { keyId := 9, iv := [1], plaintext := [2] }
                          iv := "AQ=="
                          timestamp := 0
                          expiresAt := 3 })]
            sessionStorage := [], nextId := 0 }).2.localStorage
        (CACHE_PREFIX ++ "x") = none)) :=
  C3_unreadable_entry_miss
    { sessionKey := none, localStorage := [], sessionStorage := [], nextId := 0 }
    { sessionKey := none
      localStorage := [("foi_secure_x",
        .cacheVal { documentId := "x"
                    encryptedData := { keyId := 9, iv := [1], plaintext := [2] }
                    iv := "AQ=="
                    timestamp := 0
                    expiresAt := 3 })]
      sessionStorage := [], nextId := 0 }
    [1] [2] [3] 0 0 0 "a" "x" (.buf [5])
    { documentId := "x"
      encryptedData := { keyId := 9, iv := [1], plaintext := [2] }
      iv := "AQ=="
      timestamp := 0
      expiresAt := 3 }
    rfl (by decide)

theorem C4_expired_entry_removed_witness :
    (getCachedDocument 10 "d"
        { sessionKey := none
          localStorage := [("foi_secure_d",
            .cacheVal { documentId := "d"
                        encryptedData := { keyId := 0, iv := [9], plaintext := [1] }
                        iv := "CQ=="
                        timestamp := 0
                        expiresAt := 4 })]
          sessionStorage := [], nextId := 0 }).1 = none ∧
    Storage.getItem
      (getCachedDocument 10 "d"
        { sessionKey := none
          localStorage := [("foi_secure_d",
            .cacheVal { documentId := "d"
                        encryptedData := { keyId := 0, iv := [9], plaintext := [1] }
                        iv := "CQ=="
                        timestamp := 0
                        expiresAt := 4 })]
          sessionStorage := [], nextId := 0 }).2.localStorage
      (CACHE_PREFIX ++ "d") = none ∧
    "d" ∉ getCachedDocumentIds
      (getCachedDocument 10 "d"
        { sessionKey := none
          localStorage := [("foi_secure_d",
            .cacheVal { documentId := "d"
                        encryptedData := { keyId := 0, iv := [9], plaintext := [1] }
                        iv := "CQ=="
                        timestamp := 0
                        expiresAt := 4 })]
          sessionStorage := [], nextId := 0 }).2 :=
  C4_expired_entry_removed
    { sessionKey := none
      localStorage := [("foi_secure_d",
        .cacheVal { documentId := "d"
                    encryptedData := { keyId := 0, iv := [9], plaintext := [1] }
                    iv := "CQ=="
                    timestamp := 0
                    expiresAt := 4 })]
      sessionStorage := [], nextId := 0 }
    10 "d"
    { documentId := "d"
      encryptedData := { keyId := 0, iv := [9], plaintext := [1] }
      iv := "CQ=="
      timestamp := 0
      expiresAt := 4 }
    (by decide) (by decide)

theorem C6_fixed_session_iv_witness :
    ∃ s2, cacheDocument 2 [6] "doc"
        (.buf [1])
        { sessionKey := some { key := 3, iv := [7, 8], sessionId := 4 }
          localStorage := [], sessionStorage := [], nextId := 5 } = .ok s2 ∧
      s2.sessionKey = some { key := 3, iv := [7, 8], sessionId := 4 } ∧
      (∃ c, Storage.getItem s2.localStorage (CACHE_PREFIX ++ "doc") =
          some (.cacheVal c) ∧
        c.iv = base64Encode [7, 8]) :=
  C6_fixed_session_iv
    { sessionKey := some { key := 3, iv := [7, 8], sessionId := 4 }
      localStorage := [], sessionStorage := [], nextId := 5 }
    { key := 3, iv := [7, 8], sessionId := 4 }
    rfl 2 [6] "doc" (.buf [1])

theorem C7_hash_integrity_witness :
    generateHash [1, 2, 3] = generateHash [1, 2, 3] ∧
    verifyHash [1, 2, 3] (generateHash [1, 2, 3]) = true ∧
    verifyHash ([1, 2, 3].set 0 5) (generateHash [1, 2, 3]) = false :=
  C7_hash_integrity [1, 2, 3] 0 5 (by decide) (by decide) (by decide) (by decide)

theorem C9_remove_idempotent_witness :
    removeCachedDocument "d" (removeCachedDocument "d"
        { sessionKey := none
          localStorage := [("foi_secure_d",
            .cacheVal { documentId := "d"
                        encryptedData := { keyId := 0, iv := [9], plaintext := [1] }
                        iv := "CQ=="
                        timestamp := 0
                        expiresAt := 4 })]
          sessionStorage := [], nextId := 0 }) =
      removeCachedDocument "d"
        { sessionKey := none
          localStorage := [("foi_secure_d",
            .cacheVal { documentId := "d"
                        encryptedData := { keyId := 0, iv := [9], plaintext := [1] }
                        iv := "CQ=="
                        timestamp := 0
                        expiresAt := 4 })]
          sessionStorage := [], nextId := 0 } ∧
    removeCachedDocument "d"
        { sessionKey := none, localStorage := [], sessionStorage := [], nextId := 0 } =
      { sessionKey := none, localStorage := [], sessionStorage := [], nextId := 0 } :=
  ⟨(C9_remove_idempotent "d"
      { sessionKey := none
        localStorage := [("foi_secure_d",
          .cacheVal { documentId := "d"
                      encryptedData := { keyId := 0, iv := [9], plaintext := [1] }
                      iv := "CQ=="
                      timestamp := 0
                      expiresAt := 4 })]
        sessionStorage := [], nextId := 0 }).1,
   (C9_remove_idempotent "d"
      { sessionKey := none, localStorage := [], sessionStorage := [], nextId := 0 }).2
     { sessionKey := none, localStorage := [], sessionStorage := [], nextId := 0 }
     rfl⟩

theorem C10_panic_frame_witness :
    strStartsWith "foi_session" CACHE_PREFIX = false ∧
    (∃ s2, panicClear
        { sessionKey := some { key := 0, iv := [9], sessionId := 0 }
          localStorage := [("foi_session", .rawVal "tok")]
          sessionStorage := [], nextId := 1 } = .ok s2 ∧
      Storage.getItem s2.localStorage "foi_session" =
        Storage.getItem [("foi_session", StorageValue.rawVal "tok")] "foi_session") :=
  ⟨by decide,
   C10_panic_frame
     { sessionKey := some { key := 0, iv := [9], sessionId := 0 }
       localStorage := [("foi_session", .rawVal "tok")]
       sessionStorage := [], nextId := 1 }
     "foi_session" (by decide)⟩
